import Mathlib

/-!
Shallow embedding of `src/india_sentiment_dashboard.py`.

The script's core logic is: a tweet fetcher wrapping an external API client
(`fetch_tweets`), a deterministic mock-data fallback (`generate_mock_data`),
the main fetch-or-fallback branch, and a derived-metrics pipeline
(language histogram, sentiment labelling and histogram, per-day trend,
top-5 by likes and by retweets).

Modelling choices:
* Timestamps are minutes since an arbitrary epoch, as `Int`; the call-time
  clock `datetime.now()` is passed in explicitly as a `now` parameter, and
  `timedelta(minutes=m)` is subtraction of `m`.  Calendar-date truncation
  (`pd.to_datetime(...).dt.date`) is floor division by 1440 minutes.
* The external TextBlob polarity scorer is an uninterpreted parameter
  `score : String → ℚ`; sentiment polarity values are rationals.
* The tweepy client and its possible failures are modelled explicitly:
  an absent client, a raising `search_recent_tweets` call, a response with
  no data, or per-item data where converting an item can itself raise
  (e.g. a malformed `public_metrics`).  The `try`/`except` of
  `fetch_tweets` wraps the whole loop, so an exception is modelled as
  aborting the loop and returning whatever was accumulated.
* pandas `DataFrame.nlargest(5, col)` with the default `keep="first"`
  returns the rows with the 5 largest values of `col`, sorted descending,
  ties resolved in favour of earlier rows; it is embedded as a stable
  descending insertion sort followed by `take 5`.  `value_counts()` is
  distinct values with their counts, sorted by descending count.
  `groupby('date').size()` is counts per distinct date with the keys
  sorted ascending (pandas groupby sorts keys by default).
-/

/-- A post record as built by `fetch_tweets` / `generate_mock_data`
(the dict with keys text, created_at, lang, retweets, likes). -/
structure Tweet where
  text : String
  created_at : Int
  lang : String
  retweets : Nat
  likes : Nat
deriving DecidableEq

/-- `generate_mock_data(query, n)` from the source, with the call-time
clock `datetime.now()` made an explicit argument `now` (in minutes).
Record `i` has text `f"This is a mock tweet about {query} #{i}"`,
`created_at = now - timedelta(minutes=i*5)`, `lang="en"`,
`retweets = i*2`, `likes = i*3`. -/
def generate_mock_data (query : String) (n : Nat) (now : Int) : List Tweet :=
  (List.range n).map (fun i =>
    { text := "This is a mock tweet about " ++ query ++ " #" ++ toString i
      created_at := now - ((i * 5 : ℕ) : ℤ)
      lang := "en"
      retweets := i * 2
      likes := i * 3 })

/-- A raw tweet object as returned in `response.data`, with the fields the
loop body of `fetch_tweets` reads (`text`, `created_at`, `lang`, and the
two `public_metrics` counts). -/
structure RawTweet where
  text : String
  created_at : Int
  lang : String
  retweet_count : Nat
  like_count : Nat
deriving DecidableEq

/-- The dict appended for one tweet in the loop of `fetch_tweets`. -/
def rawToRecord (t : RawTweet) : Tweet :=
  { text := t.text
    created_at := t.created_at
    lang := t.lang
    retweets := t.retweet_count
    likes := t.like_count }

/-- Outcome of the external `client.search_recent_tweets` interaction inside
the `try` block of `fetch_tweets`: the call itself raises; the call returns a
response whose `data` is empty/None; or it returns a list of items, where
converting each item may itself raise an exception (modelled as
`Except.error ()`, e.g. a malformed `public_metrics`). -/
inductive ApiOutcome where
  | raised : ApiOutcome
  | noData : ApiOutcome
  | data : List (Except Unit RawTweet) → ApiOutcome

/-- The `for tweet in response.data` loop of `fetch_tweets`: each successful
item is appended to the accumulator `all_tweets`; an exception while
processing an item aborts the loop (caught by the `except` clause) and the
accumulator so far is returned. -/
def appendLoop : List (Except Unit RawTweet) → List Tweet → List Tweet
  | [], acc => acc
  | Except.ok t :: rest, acc => appendLoop rest (acc ++ [rawToRecord t])
  | Except.error _ :: _, acc => acc

/-- `fetch_tweets` from the source: returns `[]` when `client` is absent;
otherwise runs the `try` block, in which a raising search call or an empty
`response.data` yields `[]`, and item data is processed by `appendLoop`.
All exceptions are caught (`st.error` side effect elided), and `all_tweets`
is returned. -/
def fetch_tweets (client : Option Unit) (api : ApiOutcome) : List Tweet :=
  match client, api with
  | none, _ => []
  | some _, ApiOutcome.raised => []
  | some _, ApiOutcome.noData => []
  | some _, ApiOutcome.data items => appendLoop items []

/-- Whether the modelled external interaction contains a failure anywhere:
the search call raised, or some item raised during processing. -/
def apiFailed : ApiOutcome → Bool
  | ApiOutcome.raised => true
  | ApiOutcome.noData => false
  | ApiOutcome.data items => items.any (fun it => match it with
      | Except.error _ => true
      | Except.ok _ => false)

/-- The main branch after the fetch button:
`tweets = fetch_tweets(...)`; `if not tweets: tweets = generate_mock_data(...)`.
Returns the record sequence handed to the derived-metrics pipeline. -/
def mainTweets (fetched : List Tweet) (query : String) (n : Nat) (now : Int) :
    List Tweet :=
  if fetched.isEmpty then generate_mock_data query n now else fetched

/-- The condition of the final `else` branch (`st.error("❌ No tweets
available, even with mock data.")`): taken exactly when the sequence is
empty after the fallback. -/
def errorBranchTaken (tweets : List Tweet) : Bool :=
  tweets.isEmpty

/-- The sentiment labelling lambda:
`'Positive' if x > 0 else ('Negative' if x < 0 else 'Neutral')`. -/
def sentiment_label (x : ℚ) : String :=
  if x > 0 then "Positive" else if x < 0 then "Negative" else "Neutral"

/-- Stable descending insertion by key: `x` is placed before the first
element whose key is `≤ key x`, so earlier-inserted elements win ties. -/
def insertDescBy {α : Type} (key : α → Nat) (x : α) : List α → List α
  | [] => [x]
  | y :: ys => if key y ≤ key x then x :: y :: ys else y :: insertDescBy key x ys

/-- Stable descending insertion sort by key (ties keep input order). -/
def sortByDesc {α : Type} (key : α → Nat) : List α → List α
  | [] => []
  | x :: xs => insertDescBy key x (sortByDesc key xs)

/-- pandas `df.nlargest(n, col)` with default `keep="first"`: the rows with
the `n` largest values of the column, in descending order of that column,
ties broken by input order. -/
def nlargest {α : Type} (n : Nat) (key : α → Nat) (l : List α) : List α :=
  (sortByDesc key l).take n

/-- `top_likes = df.nlargest(5, 'likes')`. -/
def top_likes (df : List Tweet) : List Tweet :=
  nlargest 5 (fun t => t.likes) df

/-- `top_retweets = df.nlargest(5, 'retweets')`. -/
def top_retweets (df : List Tweet) : List Tweet :=
  nlargest 5 (fun t => t.retweets) df

/-- pandas `Series.value_counts()`: each distinct value with its count,
ordered by descending count. -/
def valueCounts (ks : List String) : List (String × Nat) :=
  sortByDesc (fun p => p.2) (ks.dedup.map (fun s => (s, ks.count s)))

/-- `lang_counts = df['lang'].value_counts()`. -/
def lang_counts (df : List Tweet) : List (String × Nat) :=
  valueCounts (df.map (fun t => t.lang))

/-- `sentiment_counts = df['sentiment_label'].value_counts()` where
`sentiment_label` is `sentiment_label` applied to the external scorer's
polarity of each record's text. -/
def sentiment_counts (score : String → ℚ) (df : List Tweet) :
    List (String × Nat) :=
  valueCounts (df.map (fun t => sentiment_label (score t.text)))

/-- `pd.to_datetime(created_at).dt.date`: truncation of a timestamp in
minutes to its calendar day (floor division by 1440). -/
def dateOf (t : Int) : Int :=
  Int.fdiv t 1440

/-- The `date` column: `df['date']`. -/
def tweetDates (df : List Tweet) : List Int :=
  df.map (fun t => dateOf t.created_at)

/-- Ascending insertion for the groupby key order. -/
def insertAsc (x : Int) : List Int → List Int
  | [] => [x]
  | y :: ys => if x ≤ y then x :: y :: ys else y :: insertAsc x ys

/-- Ascending insertion sort for the groupby key order. -/
def sortAsc : List Int → List Int
  | [] => []
  | x :: xs => insertAsc x (sortAsc xs)

/-- `trend = df.groupby('date').size()`: one bucket per distinct date,
keys in ascending (chronological) order, each with its record count. -/
def trend (df : List Tweet) : List (Int × Nat) :=
  (sortAsc (tweetDates df).dedup).map
    (fun d => (d, (tweetDates df).count d))

/-- Projection dropping the `text` field (for query-independence). -/
def stripText (t : Tweet) : Int × String × Nat × Nat :=
  (t.created_at, t.lang, t.retweets, t.likes)

/-! Helper lemmas about the stable sorts. -/

theorem perm_insertDescBy {α : Type} (key : α → Nat) (x : α) (l : List α) :
    (insertDescBy key x l).Perm (x :: l) := by
  induction l with
  | nil => simp [insertDescBy]
  | cons y ys ih =>
    simp only [insertDescBy]
    by_cases h : key y ≤ key x
    · simp [h]
    · rw [if_neg h]
      exact (ih.cons y).trans (List.Perm.swap x y ys)

theorem perm_sortByDesc {α : Type} (key : α → Nat) (l : List α) :
    (sortByDesc key l).Perm l := by
  induction l with
  | nil => simp [sortByDesc]
  | cons x xs ih =>
    simp only [sortByDesc]
    exact (perm_insertDescBy key x _).trans (ih.cons x)

theorem pairwise_insertDescBy {α : Type} (key : α → Nat) (x : α) (l : List α)
    (h : l.Pairwise (fun a b => key b ≤ key a)) :
    (insertDescBy key x l).Pairwise (fun a b => key b ≤ key a) := by
  induction l with
  | nil => simp [insertDescBy]
  | cons y ys ih =>
    rcases List.pairwise_cons.1 h with ⟨hy, hys⟩
    simp only [insertDescBy]
    by_cases hxy : key y ≤ key x
    · rw [if_pos hxy]
      refine List.pairwise_cons.2 ⟨?_, h⟩
      intro z hz
      rcases List.mem_cons.1 hz with rfl | hz
      · exact hxy
      · exact le_trans (hy z hz) hxy
    · rw [if_neg hxy]
      refine List.pairwise_cons.2 ⟨?_, ih hys⟩
      intro z hz
      rcases List.mem_cons.1 ((perm_insertDescBy key x ys).mem_iff.1 hz) with rfl | hz
      · exact le_of_not_le hxy
      · exact hy z hz

theorem pairwise_sortByDesc {α : Type} (key : α → Nat) (l : List α) :
    (sortByDesc key l).Pairwise (fun a b => key b ≤ key a) := by
  induction l with
  | nil => simp [sortByDesc]
  | cons x xs ih => exact pairwise_insertDescBy key x _ ih

theorem filter_insertDescBy {α : Type} (key : α → Nat) (x : α) (l : List α)
    (k : Nat) :
    (insertDescBy key x l).filter (fun z => key z = k) =
      if key x = k then x :: l.filter (fun z => key z = k)
      else l.filter (fun z => key z = k) := by
  induction l with
  | nil => by_cases h : key x = k <;> simp [insertDescBy, h]
  | cons y ys ih =>
    simp only [insertDescBy]
    by_cases hxy : key y ≤ key x
    · rw [if_pos hxy]
      by_cases hk : key x = k <;> simp [List.filter_cons, hk]
    · rw [if_neg hxy]
      have hxk : key x < key y := lt_of_not_le hxy
      rw [List.filter_cons, List.filter_cons]
      by_cases hyk : key y = k
      · have hxne : ¬ key x = k := by omega
        simp [hyk, hxne, ih]
      · by_cases hk : key x = k <;> simp [hyk, hk, ih]

theorem filter_sortByDesc {α : Type} (key : α → Nat) (l : List α) (k : Nat) :
    (sortByDesc key l).filter (fun z => key z = k) =
      l.filter (fun z => key z = k) := by
  induction l with
  | nil => rfl
  | cons x xs ih =>
    simp only [sortByDesc]
    rw [filter_insertDescBy]
    by_cases hk : key x = k <;> simp [List.filter_cons, hk, ih]

theorem insertDescBy_all_lt {α : Type} (key : α → Nat) (x : α) (l : List α)
    (h : ∀ y ∈ l, key x < key y) :
    insertDescBy key x l = l ++ [x] := by
  induction l with
  | nil => rfl
  | cons y ys ih =>
    have hy := h y (List.mem_cons_self y ys)
    simp only [insertDescBy, if_neg (not_le_of_lt hy), List.cons_append]
    rw [ih]
    intro z hz
    exact h z (List.mem_cons_of_mem y hz)

theorem sortByDesc_strict_incr {α : Type} (key : α → Nat) (l : List α)
    (h : l.Pairwise (fun a b => key a < key b)) :
    sortByDesc key l = l.reverse := by
  induction l with
  | nil => rfl
  | cons x xs ih =>
    rcases List.pairwise_cons.1 h with ⟨hx, hxs⟩
    simp only [sortByDesc, ih hxs]
    rw [insertDescBy_all_lt]
    · simp
    · intro y hy
      exact hx y (List.mem_reverse.1 hy)

theorem perm_insertAsc (x : Int) (l : List Int) :
    (insertAsc x l).Perm (x :: l) := by
  induction l with
  | nil => simp [insertAsc]
  | cons y ys ih =>
    simp only [insertAsc]
    by_cases h : x ≤ y
    · simp [h]
    · rw [if_neg h]
      exact (ih.cons y).trans (List.Perm.swap x y ys)

theorem perm_sortAsc (l : List Int) : (sortAsc l).Perm l := by
  induction l with
  | nil => simp [sortAsc]
  | cons x xs ih =>
    simp only [sortAsc]
    exact (perm_insertAsc x _).trans (ih.cons x)

theorem pairwise_insertAsc (x : Int) (l : List Int)
    (h : l.Pairwise (fun a b => a ≤ b)) :
    (insertAsc x l).Pairwise (fun a b => a ≤ b) := by
  induction l with
  | nil => simp [insertAsc]
  | cons y ys ih =>
    rcases List.pairwise_cons.1 h with ⟨hy, hys⟩
    simp only [insertAsc]
    by_cases hxy : x ≤ y
    · rw [if_pos hxy]
      refine List.pairwise_cons.2 ⟨?_, h⟩
      intro z hz
      rcases List.mem_cons.1 hz with rfl | hz
      · exact hxy
      · exact le_trans hxy (hy z hz)
    · rw [if_neg hxy]
      refine List.pairwise_cons.2 ⟨?_, ih hys⟩
      intro z hz
      rcases List.mem_cons.1 ((perm_insertAsc x ys).mem_iff.1 hz) with rfl | hz
      · exact le_of_not_le hxy
      · exact hy z hz

theorem pairwise_sortAsc (l : List Int) :
    (sortAsc l).Pairwise (fun a b => a ≤ b) := by
  induction l with
  | nil => simp [sortAsc]
  | cons x xs ih => exact pairwise_insertAsc x _ ih

theorem appendLoop_ok_all (pre : List RawTweet) (acc : List Tweet) :
    appendLoop (pre.map Except.ok) acc = acc ++ pre.map rawToRecord := by
  induction pre generalizing acc with
  | nil => simp [appendLoop]
  | cons t rest ih =>
    simp only [List.map_cons, appendLoop, ih, List.append_assoc, List.cons_append,
      List.nil_append]

theorem appendLoop_error_at (pre rest : List RawTweet) (acc : List Tweet) :
    appendLoop (pre.map Except.ok ++ Except.error () :: rest.map Except.ok) acc =
      acc ++ pre.map rawToRecord := by
  induction pre generalizing acc with
  | nil => simp [appendLoop]
  | cons t more ih =>
    simp only [List.map_cons, List.cons_append, appendLoop]
    rw [show (List.map Except.ok more).append (Except.error () :: List.map Except.ok rest) =
      List.map Except.ok more ++ Except.error () :: List.map Except.ok rest from rfl, ih]
    simp

/-! Claim theorems. -/

/-- C1: for every query `q` and count `n ≥ 1`, `generate_mock_data q n now`
returns exactly `n` records; the record at zero-based index `i` has text
containing `q` and the index `i`, `created_at = now - i*5` minutes,
`lang = "en"`, `retweets = 2*i`, `likes = 3*i`; and the `created_at`
values are strictly decreasing (oldest last). -/
theorem generate_mock_data_spec (q : String) (n : Nat) (now : Int)
    (hn : 1 ≤ n) :
    (generate_mock_data q n now).length = n ∧
    (∀ i, i < n → (generate_mock_data q n now)[i]? =
      some { text := "This is a mock tweet about " ++ q ++ " #" ++ toString i
             created_at := now - ((i * 5 : ℕ) : ℤ)
             lang := "en"
             retweets := 2 * i
             likes := 3 * i }) ∧
    ((generate_mock_data q n now).map (fun t => t.created_at)).Pairwise
      (fun a b => b < a) := by
  refine ⟨by simp [generate_mock_data], ?_, ?_⟩
  · intro i hi
    simp [generate_mock_data, List.getElem?_map, List.getElem?_range, hi,
      Nat.mul_comm]
  · simp only [generate_mock_data, List.map_map]
    refine (List.pairwise_lt_range n).map _ ?_
    intro a b hab
    show now - ((b * 5 : ℕ) : ℤ) < now - ((a * 5 : ℕ) : ℤ)
    push_cast
    omega

/-- Witness for C1 at `q = "India"`, `n = 3`, `now = 0`. -/
theorem generate_mock_data_spec_witness :
    (generate_mock_data "India" 3 0).length = 3 ∧
    (generate_mock_data "India" 3 0)[1]? =
      some { text := "This is a mock tweet about India #1"
             created_at := -5
             lang := "en"
             retweets := 2
             likes := 3 } :=
  ⟨(generate_mock_data_spec "India" 3 0 (by decide)).1,
   (generate_mock_data_spec "India" 3 0 (by decide)).2.1 1 (by decide)⟩

/-- C2: sentiment labelling is a function of the polarity alone:
positive polarity yields "Positive", negative yields "Negative",
zero yields "Neutral"; in particular at 0.5, -0.3 and 0. -/
theorem sentiment_label_spec (x : ℚ) :
    (0 < x → sentiment_label x = "Positive") ∧
    (x < 0 → sentiment_label x = "Negative") ∧
    (x = 0 → sentiment_label x = "Neutral") ∧
    sentiment_label (1/2) = "Positive" ∧
    sentiment_label (-3/10) = "Negative" ∧
    sentiment_label 0 = "Neutral" := by
  refine ⟨?_, ?_, ?_, ?_, ?_, ?_⟩
  · intro h
    simp [sentiment_label, h]
  · intro h
    rw [sentiment_label, if_neg (by exact not_lt_of_lt h), if_pos h]
  · intro h
    simp [sentiment_label, h]
  · norm_num [sentiment_label]
  · rw [sentiment_label, if_neg (by norm_num), if_pos (by norm_num)]
  · simp [sentiment_label]

/-- Witness for C2 at polarities 0.5, -0.3 and 0. -/
theorem sentiment_label_spec_witness :
    sentiment_label (1/2) = "Positive" ∧
    sentiment_label (-3/10) = "Negative" ∧
    sentiment_label 0 = "Neutral" :=
  ⟨(sentiment_label_spec (1/2)).1 (by norm_num),
   (sentiment_label_spec (-3/10)).2.1 (by norm_num),
   (sentiment_label_spec 0).2.2.1 rfl⟩

/-- C3 counterexample: it is not true that every failure of the client
interaction yields an empty result.  When the search call succeeds but an
exception is raised while processing the second item (after the first was
already appended to `all_tweets`), the caught exception leaves the first
record in `all_tweets`, and `fetch_tweets` returns a one-element list. -/
theorem fetch_tweets_failure_not_always_empty :
    ¬ (∀ (client : Option Unit) (api : ApiOutcome),
        (client = none ∨ apiFailed api = true) →
        fetch_tweets client api = []) := by
  intro h
  have hfail : apiFailed (ApiOutcome.data
      [Except.ok { text := "t", created_at := 0, lang := "en",
                   retweet_count := 0, like_count := 0 },
       Except.error ()]) = true := by decide
  have := h (some ()) (ApiOutcome.data
      [Except.ok { text := "t", created_at := 0, lang := "en",
                   retweet_count := 0, like_count := 0 },
       Except.error ()]) (Or.inr hfail)
  simp [fetch_tweets, appendLoop] at this

/-- C3 amended: `fetch_tweets` returns `[]` whenever the client is absent,
the search call itself raises, or the response has no data; when an
exception is raised while processing the item at position `k` of the
response data, it returns exactly the `k` records already converted
(so a failure occurring before any record is appended — in particular any
failure of the search call itself — yields `[]`); in every case it returns
a list normally rather than propagating an exception. -/
theorem fetch_tweets_error_containment (api : ApiOutcome)
    (pre rest : List RawTweet) :
    fetch_tweets none api = [] ∧
    fetch_tweets (some ()) ApiOutcome.raised = [] ∧
    fetch_tweets (some ()) ApiOutcome.noData = [] ∧
    fetch_tweets (some ()) (ApiOutcome.data
        (pre.map Except.ok ++ Except.error () :: rest.map Except.ok)) =
      pre.map rawToRecord ∧
    fetch_tweets (some ()) (ApiOutcome.data (pre.map Except.ok)) =
      pre.map rawToRecord := by
  refine ⟨rfl, rfl, rfl, ?_, ?_⟩
  · simp [fetch_tweets, appendLoop_error_at]
  · simp [fetch_tweets, appendLoop_ok_all]

/-- C4: if `fetch_tweets` returned an empty sequence, the sequence handed
to the pipeline is exactly the output of `generate_mock_data` for that
query and count; if it returned a non-empty sequence, the pipeline input
is exactly the fetched sequence (the fallback generator's output is not
used at all). -/
theorem mainTweets_fallback_exact (fetched : List Tweet) (q : String)
    (n : Nat) (now : Int) :
    (fetched = [] → mainTweets fetched q n now = generate_mock_data q n now) ∧
    (fetched ≠ [] → mainTweets fetched q n now = fetched) := by
  constructor
  · intro h
    simp [mainTweets, h]
  · intro h
    simp [mainTweets, h]

/-- Witness for C4 at concrete inputs (empty and non-empty fetch results). -/
theorem mainTweets_fallback_exact_witness :
    mainTweets [] "India" 2 0 = generate_mock_data "India" 2 0 ∧
    mainTweets [{ text := "t", created_at := 0, lang := "en",
                  retweets := 1, likes := 1 }] "India" 2 0 =
      [{ text := "t", created_at := 0, lang := "en",
         retweets := 1, likes := 1 }] :=
  ⟨(mainTweets_fallback_exact [] "India" 2 0).1 rfl,
   (mainTweets_fallback_exact _ "India" 2 0).2 (by decide)⟩

/-- C8: for every count `n ≥ 1`, the sequence handed to the pipeline is
non-empty — if the fetch result was empty, the fallback contributes `n ≥ 1`
records — so the `else` branch reporting "No tweets available, even with
mock data" is never taken and the pipeline never runs on empty input. -/
theorem mainTweets_nonempty (fetched : List Tweet) (q : String) (n : Nat)
    (now : Int) (hn : 1 ≤ n) :
    mainTweets fetched q n now ≠ [] ∧
    errorBranchTaken (mainTweets fetched q n now) = false := by
  have hne : mainTweets fetched q n now ≠ [] := by
    unfold mainTweets
    by_cases h : fetched.isEmpty
    · rw [if_pos h]
      have hl : (generate_mock_data q n now).length = n := by
        simp [generate_mock_data]
      intro hcon
      rw [hcon] at hl
      simp at hl
      omega
    · rw [if_neg h]
      intro hcon
      rw [hcon] at h
      simp at h
  refine ⟨hne, ?_⟩
  unfold errorBranchTaken
  simpa [List.isEmpty_iff] using hne

/-- Witness for C8 at an empty fetch result and `n = 5`. -/
theorem mainTweets_nonempty_witness :
    mainTweets [] "India" 5 0 ≠ [] :=
  (mainTweets_nonempty [] "India" 5 0 (by decide)).1

/-- C9: `generate_mock_data` is a deterministic function of its arguments
(it is a pure function of `query`, `count` and the captured clock value
`now`, so two calls with the same `count` and `now` agree by construction);
two calls with the same `count` and `now` but different queries agree on
every field except `text` (the `stripText` projections coincide), and in
each record the query appears embedded in the `text` together with the
record's index. -/
theorem generate_mock_data_query_independence (q1 q2 : String) (n : Nat)
    (now : Int) :
    (generate_mock_data q1 n now).map stripText =
      (generate_mock_data q2 n now).map stripText ∧
    (∀ t ∈ generate_mock_data q1 n now, ∃ i, i < n ∧
      t.text = "This is a mock tweet about " ++ q1 ++ " #" ++ toString i) := by
  constructor
  · simp only [generate_mock_data, List.map_map]
    rfl
  · intro t ht
    simp only [generate_mock_data, List.mem_map, List.mem_range] at ht
    obtain ⟨i, hi, rfl⟩ := ht
    exact ⟨i, hi, rfl⟩

/-- Witness for C9 at `q1 = "a"`, `q2 = "b"`, `n = 1`, `now = 0`. -/
theorem generate_mock_data_query_independence_witness :
    (generate_mock_data "a" 1 0).map stripText =
      (generate_mock_data "b" 1 0).map stripText ∧
    ∃ i, i < 1 ∧
      ({ text := "This is a mock tweet about a #0", created_at := 0,
         lang := "en", retweets := 0, likes := 0 } : Tweet).text =
        "This is a mock tweet about " ++ "a" ++ " #" ++ toString i :=
  ⟨(generate_mock_data_query_independence "a" "b" 1 0).1,
   (generate_mock_data_query_independence "a" "b" 1 0).2
     { text := "This is a mock tweet about a #0", created_at := 0,
       lang := "en", retweets := 0, likes := 0 } (by decide)⟩

/-- C10: on mock data of size `n ≥ 5`, top-5-by-likes and top-5-by-retweets
select exactly the same records in the same order, namely the records at
indices `n-1` down to `n-5` (the first five of the reversed input), because
`likes = 3*i` and `retweets = 2*i` are both strictly increasing in `i`;
both selections have exactly 5 records. -/
theorem top5_mock_agree (q : String) (n : Nat) (now : Int) (hn : 5 ≤ n) :
    top_likes (generate_mock_data q n now) =
      top_retweets (generate_mock_data q n now) ∧
    top_likes (generate_mock_data q n now) =
      ((generate_mock_data q n now).reverse).take 5 ∧
    (top_likes (generate_mock_data q n now)).length = 5 := by
  have hlikes : sortByDesc (fun t => t.likes) (generate_mock_data q n now) =
      (generate_mock_data q n now).reverse := by
    apply sortByDesc_strict_incr
    simp only [generate_mock_data]
    refine (List.pairwise_lt_range n).map _ ?_
    intro a b hab
    show a * 3 < b * 3
    omega
  have hrt : sortByDesc (fun t => t.retweets) (generate_mock_data q n now) =
      (generate_mock_data q n now).reverse := by
    apply sortByDesc_strict_incr
    simp only [generate_mock_data]
    refine (List.pairwise_lt_range n).map _ ?_
    intro a b hab
    show a * 2 < b * 2
    omega
  refine ⟨?_, ?_, ?_⟩
  · simp [top_likes, top_retweets, nlargest, hlikes, hrt]
  · simp [top_likes, nlargest, hlikes]
  · simp only [top_likes, nlargest, hlikes, List.length_take,
      List.length_reverse]
    simp [generate_mock_data]
    omega

/-- Witness for C10 at `q = "India"`, `n = 5`, `now = 0`. -/
theorem top5_mock_agree_witness :
    top_likes (generate_mock_data "India" 5 0) =
      top_retweets (generate_mock_data "India" 5 0) :=
  (top5_mock_agree "India" 5 0 (by decide)).1

/-- C5: top-5 by likes and top-5 by retweets return the records with the 5
largest values of the respective field in descending order of that field
(the key sequence of the output is non-increasing, and each selection is a
5-element truncation of a full sort whose ties keep input order: filtering
the sorted list to any fixed key value returns those records in input
order); when the input has at most 5 records the output is all of them
(a permutation of the input); and on the 10-record mock input whose likes
are `[0,3,6,...,27]` the top-5-by-likes key sequence is
`[27,24,21,18,15]`. -/
theorem top5_desc_stable (l : List Tweet) (q : String) (now : Int) :
    ((top_likes l).map (fun t => t.likes)).Pairwise (fun a b => b ≤ a) ∧
    ((top_retweets l).map (fun t => t.retweets)).Pairwise (fun a b => b ≤ a) ∧
    (top_likes l).length = min 5 l.length ∧
    (top_retweets l).length = min 5 l.length ∧
    (l.length ≤ 5 → (top_likes l).Perm l ∧ (top_retweets l).Perm l) ∧
    (∀ k, (sortByDesc (fun t => t.likes) l).filter (fun t => t.likes = k) =
      l.filter (fun t => t.likes = k)) ∧
    (∀ k, (sortByDesc (fun t => t.retweets) l).filter
        (fun t => t.retweets = k) =
      l.filter (fun t => t.retweets = k)) ∧
    (top_likes (generate_mock_data q 10 now)).map (fun t => t.likes) =
      [27, 24, 21, 18, 15] := by
  have hdesc : ∀ key : Tweet → Nat,
      ((nlargest 5 key l).map key).Pairwise (fun a b => b ≤ a) := by
    intro key
    have hs := pairwise_sortByDesc key l
    have ht := hs.sublist (List.take_sublist 5 (sortByDesc key l))
    exact ht.map key (fun a b hab => hab)
  have hlen : ∀ key : Tweet → Nat, (nlargest 5 key l).length = min 5 l.length := by
    intro key
    simp [nlargest, List.length_take, (perm_sortByDesc key l).length_eq]
  have hall : ∀ key : Tweet → Nat, l.length ≤ 5 → (nlargest 5 key l).Perm l := by
    intro key hle
    have : (sortByDesc key l).length ≤ 5 := by
      rw [(perm_sortByDesc key l).length_eq]
      exact hle
    rw [nlargest, List.take_of_length_le this]
    exact perm_sortByDesc key l
  have hmock : (top_likes (generate_mock_data q 10 now)).map
      (fun t => t.likes) = [27, 24, 21, 18, 15] := by
    have h10 : sortByDesc (fun t => t.likes) (generate_mock_data q 10 now) =
        (generate_mock_data q 10 now).reverse := by
      apply sortByDesc_strict_incr
      simp only [generate_mock_data]
      refine (List.pairwise_lt_range 10).map _ ?_
      intro a b hab
      show a * 3 < b * 3
      omega
    rw [top_likes, nlargest, h10]
    simp [generate_mock_data, List.range_succ]
  exact ⟨hdesc _, hdesc _, hlen _, hlen _,
    fun hle => ⟨hall _ hle, hall _ hle⟩,
    fun k => filter_sortByDesc _ l k,
    fun k => filter_sortByDesc _ l k, hmock⟩

/-- Witness for C5 at a 10-record mock input and a 3-record input. -/
theorem top5_desc_stable_witness :
    (top_likes (generate_mock_data "India" 10 0)).map (fun t => t.likes) =
      [27, 24, 21, 18, 15] ∧
    (top_likes (generate_mock_data "India" 3 0)).Perm
      (generate_mock_data "India" 3 0) :=
  ⟨(top5_desc_stable (generate_mock_data "India" 10 0) "India" 0).2.2.2.2.2.2.2,
   ((top5_desc_stable (generate_mock_data "India" 3 0) "India" 0).2.2.2.2.1
     (by decide)).1⟩

/-- C6: the time trend groups records by the calendar date of `created_at`,
counts records per date, and orders the buckets chronologically: for any
input spanning exactly two distinct calendar dates it yields exactly two
buckets with strictly increasing dates whose counts sum to the number of
records. -/
theorem trend_spec (l : List Tweet)
    (h2 : (tweetDates l).dedup.length = 2) :
    (trend l).length = 2 ∧
    ((trend l).map Prod.fst).Pairwise (fun a b => a < b) ∧
    ((trend l).map Prod.snd).sum = l.length := by
  have hperm := perm_sortAsc (tweetDates l).dedup
  have hfst : (trend l).map Prod.fst = sortAsc (tweetDates l).dedup := by
    simp only [trend, List.map_map]
    exact List.map_id _
  have hsnd : (trend l).map Prod.snd =
      (sortAsc (tweetDates l).dedup).map (fun d => (tweetDates l).count d) := by
    simp only [trend, List.map_map]
    rfl
  refine ⟨?_, ?_, ?_⟩
  · simp [trend, hperm.length_eq, h2]
  · rw [hfst]
    have hle := pairwise_sortAsc (tweetDates l).dedup
    have hnd : (sortAsc (tweetDates l).dedup).Nodup :=
      hperm.nodup_iff.2 (List.nodup_dedup _)
    exact (hle.and hnd).imp (fun h => lt_of_le_of_ne h.1 h.2)
  · rw [hsnd]
    rw [(hperm.map (fun d => (tweetDates l).count d)).sum_eq]
    rw [List.sum_map_count_dedup_eq_length]
    simp [tweetDates]

/-- Witness for C6: two records one calendar day apart. -/
theorem trend_spec_witness :
    (trend [{ text := "a", created_at := 0, lang := "en",
              retweets := 0, likes := 0 },
            { text := "b", created_at := 1440, lang := "en",
              retweets := 0, likes := 0 }]).length = 2 :=
  (trend_spec _ (by decide)).1

/-- C7: the language histogram and the sentiment-label histogram are each
ordered by descending count; and for any non-empty input in which every
record has `lang = "en"`, the language histogram is exactly the single
entry `("en", N)` where `N` is the input size. -/
theorem value_counts_spec (score : String → ℚ) (df : List Tweet) :
    ((lang_counts df).map Prod.snd).Pairwise (fun a b => b ≤ a) ∧
    ((sentiment_counts score df).map Prod.snd).Pairwise (fun a b => b ≤ a) ∧
    (df ≠ [] → (∀ t ∈ df, t.lang = "en") →
      lang_counts df = [("en", df.length)]) := by
  have hdesc : ∀ ks : List String,
      ((valueCounts ks).map Prod.snd).Pairwise (fun a b => b ≤ a) := by
    intro ks
    unfold valueCounts
    exact (pairwise_sortByDesc (fun p : String × Nat => p.2)
      (ks.dedup.map (fun s => (s, ks.count s)))).map _ (fun a b h => h)
  refine ⟨hdesc _, hdesc _, ?_⟩
  intro hne hen
  have hmap : df.map (fun t => t.lang) = List.replicate df.length "en" := by
    refine List.eq_replicate_iff.2 ⟨by simp, ?_⟩
    intro b hb
    obtain ⟨t, ht, rfl⟩ := List.mem_map.1 hb
    exact hen t ht
  have hlen : df.length ≠ 0 := by
    intro h
    exact hne (List.length_eq_zero.1 h)
  rw [lang_counts, hmap, valueCounts, List.replicate_dedup hlen]
  simp [sortByDesc, insertDescBy]

/-- Witness for C7 at a one-record all-"en" input. -/
theorem value_counts_spec_witness :
    lang_counts [{ text := "a", created_at := 0, lang := "en",
                   retweets := 0, likes := 0 }] = [("en", 1)] :=
  (value_counts_spec (fun _ => 0) _).2.2 (by decide)
    (by intro t ht; rcases List.mem_singleton.1 ht with rfl; rfl)
